import Mathlib

/-!
Verification of the job-orchestration core of the process-api repository.

The Go sources embedded here are:
- src/api/jobs/active_jobs.go : the ActiveJobs registry and the newer
  AWSBatchJob (guarded NewStatusUpdate, guarded Kill) - namespace ApiJobs;
- src/jobs/jobs.go : the older AWSBatchJob (unguarded NewStatusUpdate,
  monitor loop Run, Kill, Create, HandleError) - namespace JobsPkg;
- src/jobs/handlers.go : the Execution and JobResultsHandler REST handlers.

Modelling conventions:
- time.Time is modelled as Nat; 0 stands for the Go zero time
  (time.Time.IsZero); the wall clock read by time.Now() is passed in as an
  explicit argument called now.
- Go errors are Option String (none = nil error).
- The cancellation token (ctx / CtxCancel) is modelled by a Boolean field
  cancelled; CtxCancel sets it to true.
- Calls into external collaborators (the AWS Batch controller, CloudWatch,
  the jobs database) are modelled by explicit outcome parameters: each
  embedded operation takes the value such a call would return.
- Configuration fields of the Go structs that no embedded operation reads
  or writes (ImgTag, JobDef, JobQueue, JobName, EnvVars, BatchContext,
  Links) are omitted from the state records.
-/

/-- OGC status code, shared by both Go packages (src/jobs/jobs.go lines 57-63). -/
def ACCEPTED : String := "accepted"

/-- OGC status code (src/jobs/jobs.go lines 57-63). -/
def RUNNING : String := "running"

/-- OGC status code (src/jobs/jobs.go lines 57-63). -/
def SUCCESSFUL : String := "successful"

/-- OGC status code (src/jobs/jobs.go lines 57-63). -/
def FAILED : String := "failed"

/-- OGC status code (src/jobs/jobs.go lines 57-63). -/
def DISMISSED : String := "dismissed"

/-- The terminal-status test used by the switch statements of the source:
switch on SUCCESSFUL, DISMISSED, FAILED. -/
def terminalStatus (s : String) : Bool :=
  s == SUCCESSFUL || s == DISMISSED || s == FAILED

namespace ApiJobs

/-- Observable state of the AWSBatchJob of src/api/jobs/active_jobs.go
(second part of the file, lines 61-93): status, update time and the api log.
The wait groups, channels, storage handles and backend configuration carried
by the Go struct are live handles with no bearing on the status fields. -/
structure AWSBatchJob where
  Status : String
  UpdateTime : Nat
  apiLogs : List String
  deriving DecidableEq

/-- NewStatusUpdate of src/api/jobs/active_jobs.go lines 152-167: if the old
status is one of the terminated statuses it returns without updating;
otherwise it sets the status, and sets UpdateTime to the given time, or to
the current clock time when the given time is the zero time. The trailing
DB.updateJobRecord call writes to the external jobs database and does not
touch the job state. -/
def NewStatusUpdate (j : AWSBatchJob) (status : String) (updateTime : Nat)
    (now : Nat) : AWSBatchJob :=
  if terminalStatus j.Status then j
  else
    { j with
      Status := status
      UpdateTime := if updateTime = 0 then now else updateTime }

/-- NewMessage of src/api/jobs/active_jobs.go lines 144-146: append to the api log. -/
def NewMessage (j : AWSBatchJob) (m : String) : AWSBatchJob :=
  { j with apiLogs := j.apiLogs ++ [m] }

/-- Kill of src/api/jobs/active_jobs.go lines 222-249. It first appends the
dismiss message; if the current status is terminal it returns an error
without contacting the provider; otherwise it builds a batch controller
(outcome ctrlErr), issues the provider-side JobKill (outcome killErr), and on
success records the dismissed status. The returned triple is (new job state,
returned error, whether the provider-side JobKill call was issued). -/
def Kill (j : AWSBatchJob) (ctrlErr killErr : Option String) (now : Nat) :
    AWSBatchJob × Option String × Bool :=
  let j1 := NewMessage j "Received dismiss signal"
  if terminalStatus j.Status then
    (j1, some "cannot call delete on an already completed, failed, or dismissed job", false)
  else
    match ctrlErr with
    | some e =>
      (NewMessage j1 ("Could not send kill signal to AWS Batch API. Error: " ++ e),
        some e, false)
    | none =>
      match killErr with
      | some e =>
        (NewMessage j1 ("Could not send kill signal to AWS Batch API. Error: " ++ e),
          some e, true)
      | none => (NewStatusUpdate j1 DISMISSED 0 now, none, true)

/-- A sequence of NewStatusUpdate calls, applied in order; each call carries
the requested status, the updateTime argument, and the wall clock at the call. -/
def applyUpdates (j : AWSBatchJob) : List (String × Nat × Nat) → AWSBatchJob
  | [] => j
  | (s, t, now) :: rest => applyUpdates (NewStatusUpdate j s t now) rest

end ApiJobs

namespace JobsPkg

/-- Observable state of the AWSBatchJob of src/jobs/jobs.go lines 149-168.
Cmd is an Option to retain the Go distinction between a nil and a present
command slice (Create inspects it). The cancelled flag models the state of
the cancellation context: CtxCancel sets it. -/
structure AWSBatchJob where
  UUID : String
  Status : String
  UpdateTime : Nat
  APILogs : List String
  ContainerLogs : List String
  AWSBatchID : String
  Cmd : Option (List String)
  cancelled : Bool
  deriving DecidableEq

/-- NewStatusUpdate of src/jobs/jobs.go lines 215-218: unconditionally set
the status and stamp UpdateTime with the current clock; there is no terminal
guard in this package. -/
def NewStatusUpdate (j : AWSBatchJob) (s : String) (now : Nat) : AWSBatchJob :=
  { j with Status := s, UpdateTime := now }

/-- NewMessage of src/jobs/jobs.go lines 201-203. -/
def NewMessage (j : AWSBatchJob) (m : String) : AWSBatchJob :=
  { j with APILogs := j.APILogs ++ [m] }

/-- HandleError of src/jobs/jobs.go lines 205-209: append the message to the
api log, set the status to failed, and cancel the context. -/
def HandleError (j : AWSBatchJob) (m : String) (now : Nat) : AWSBatchJob :=
  let j1 := { j with APILogs := j.APILogs ++ [m] }
  let j2 := NewStatusUpdate j1 FAILED now
  { j2 with cancelled := true }

/-- One observation delivered to the monitor loop: either the error returned
by the JobMonitor call, or the (status, logStream) pair it reports. -/
inductive BatchObs where
  | fail (e : String)
  | ok (status : String) (logStream : String)
  deriving DecidableEq

/-- The status switch of the monitor loop, src/jobs/jobs.go lines 296-314,
entered when the observed status differs from the previous one. Returns the
updated job and whether the loop returns (terminal cases cancel the context
and return). -/
def runSwitch (j : AWSBatchJob) (status : String) (now : Nat) :
    AWSBatchJob × Bool :=
  if status = "ACCEPTED" then (NewStatusUpdate j ACCEPTED now, false)
  else if status = "RUNNING" then (NewStatusUpdate j RUNNING now, false)
  else if status = "SUCCEEDED" then
    ({ NewStatusUpdate j SUCCESSFUL now with cancelled := true }, true)
  else if status = "DISMISSED" then
    ({ NewStatusUpdate j DISMISSED now with cancelled := true }, true)
  else if status = "FAILED" then
    ({ NewStatusUpdate j FAILED now with cancelled := true }, true)
  else (j, false)

/-- One iteration of the monitor loop body, src/jobs/jobs.go lines 286-318.
On a JobMonitor error the job is routed through HandleError and the loop
returns. On success the container-log pointer is replaced, and if the status
changed the switch runs. Returns (job, value of oldStatus after the
iteration, whether the loop continues to the next tick). -/
def runIter (j : AWSBatchJob) (oldStatus : String) (obs : BatchObs)
    (now : Nat) : AWSBatchJob × String × Bool :=
  match obs with
  | .fail e => (HandleError j e now, oldStatus, false)
  | .ok status logStream =>
    let j1 := { j with ContainerLogs := [logStream] }
    if status ≠ oldStatus then
      let p := runSwitch j1 status now
      (p.1, status, !p.2)
    else (j1, status, true)

/-- Kill of src/jobs/jobs.go lines 321-336: build the controller (outcome
ctrlErr), issue the provider JobKill (outcome killErr), and on success set
the dismissed status and cancel the context. -/
def Kill (j : AWSBatchJob) (ctrlErr killErr : Option String) (now : Nat) :
    AWSBatchJob × Option String :=
  match ctrlErr with
  | some e => (HandleError j e now, some e)
  | none =>
    match killErr with
    | some e => (j, some e)
    | none => ({ NewStatusUpdate j DISMISSED now with cancelled := true }, none)

/-- Create of src/jobs/jobs.go lines 238-269: on a controller or JobCreate
error the job is routed through HandleError and the error returned; on
success the provider id is recorded and the status set to accepted. The Go
code then checks j.Cmd == nil and, in that branch, dereferences the nil
error value err, a runtime panic; the branch is modelled by the result none. -/
def Create (j : AWSBatchJob) (ctrlErr createErr : Option String)
    (batchID : String) (now : Nat) : Option (AWSBatchJob × Option String) :=
  match ctrlErr with
  | some e => some (HandleError j e now, some e)
  | none =>
    match createErr with
    | some e => some (HandleError j e now, some e)
    | none =>
      let j1 := { j with AWSBatchID := batchID }
      match j1.Cmd with
      | none => none
      | some _ => some (NewStatusUpdate j1 ACCEPTED now, none)

end JobsPkg

namespace JobsPkg

/-- The terminal guard of ApiJobs.NewStatusUpdate (src/api/jobs/active_jobs.go
lines 152-167) transplanted onto the monitor job state: a status update that
is a no-op once the status is terminal. This is the repair the amended C4
claim is stated against; it is not the update the src/jobs monitor uses. -/
def NewStatusUpdateGuarded (j : AWSBatchJob) (s : String) (now : Nat) :
    AWSBatchJob :=
  if terminalStatus j.Status then j else NewStatusUpdate j s now

/-- HandleError with the guarded status update in place of the unguarded one. -/
def HandleErrorGuarded (j : AWSBatchJob) (m : String) (now : Nat) :
    AWSBatchJob :=
  let j1 := { j with APILogs := j.APILogs ++ [m] }
  let j2 := NewStatusUpdateGuarded j1 FAILED now
  { j2 with cancelled := true }

/-- The monitor status switch with the guarded status update in place of the
unguarded one; otherwise identical to runSwitch. -/
def runSwitchGuarded (j : AWSBatchJob) (status : String) (now : Nat) :
    AWSBatchJob × Bool :=
  if status = "ACCEPTED" then (NewStatusUpdateGuarded j ACCEPTED now, false)
  else if status = "RUNNING" then (NewStatusUpdateGuarded j RUNNING now, false)
  else if status = "SUCCEEDED" then
    ({ NewStatusUpdateGuarded j SUCCESSFUL now with cancelled := true }, true)
  else if status = "DISMISSED" then
    ({ NewStatusUpdateGuarded j DISMISSED now with cancelled := true }, true)
  else if status = "FAILED" then
    ({ NewStatusUpdateGuarded j FAILED now with cancelled := true }, true)
  else (j, false)

/-- One monitor iteration with the guarded status update; otherwise identical
to runIter. -/
def runIterGuarded (j : AWSBatchJob) (oldStatus : String) (obs : BatchObs)
    (now : Nat) : AWSBatchJob × String × Bool :=
  match obs with
  | .fail e => (HandleErrorGuarded j e now, oldStatus, false)
  | .ok status logStream =>
    let j1 := { j with ContainerLogs := [logStream] }
    if status ≠ oldStatus then
      let p := runSwitchGuarded j1 status now
      (p.1, status, !p.2)
    else (j1, status, true)

/-- The monitor loop with the guarded status update, run over a finite list
of (observation, clock) ticks; the loop stops early when an iteration
returns, exactly as the Go for-loop does. -/
def monitorGuarded (j : AWSBatchJob) (oldStatus : String) :
    List (BatchObs × Nat) → AWSBatchJob
  | [] => j
  | (obs, now) :: rest =>
    let r := runIterGuarded j oldStatus obs now
    if r.2.2 then monitorGuarded r.1 r.2.1 rest else r.1

end JobsPkg

/-- One registered job as the KillAll scan of src/api/jobs/active_jobs.go
sees it: its current status and the error its Kill method would return
(none for a nil error). -/
structure RegJob where
  jobID : String
  status : String
  killErr : Option String
  deriving DecidableEq

/-- The eligibility test of the KillAll loop, src/api/jobs/active_jobs.go
line 33: current status is accepted or running. -/
def eligibleJob (j : RegJob) : Bool :=
  j.status == ACCEPTED || j.status == RUNNING

/-- KillAll of src/api/jobs/active_jobs.go lines 28-40, over the registry in
one iteration order. For each job whose status is accepted or running, Kill
is invoked; the first Kill error is returned at once and no further job is
visited. The result pairs every registered job with whether Kill was invoked
on it, together with the returned error. -/
def KillAll : List RegJob → List (RegJob × Bool) × Option String
  | [] => ([], none)
  | j :: rest =>
    if eligibleJob j then
      match j.killErr with
      | some e => ((j, true) :: rest.map (fun r => (r, false)), some e)
      | none =>
        let p := KillAll rest
        ((j, true) :: p.1, p.2)
    else
      let p := KillAll rest
      ((j, false) :: p.1, p.2)

/-- View of one cached job as the read-side handlers of src/jobs/handlers.go
consume it: identity, status, update time, and the payloads returned by the
JobOutputs and JobLogs accessors (which live outside src and are treated as
opaque per-job data). -/
structure CacheJob where
  UUID : String
  Status : String
  UpdateTime : Nat
  outputs : String
  logs : String
  deriving DecidableEq

/-- Body shape of a JobResultsHandler response. -/
inductive ResultsBody where
  | outputs (o : String)
  | logsDetail (l : String)
  | notReady
  | notFound
  deriving DecidableEq

/-- JobResultsHandler of src/jobs/handlers.go lines 304-338: scan the cache
for the job id; if found, switch on the status: successful answers 200 with
the job outputs, failed and dismissed answer 200 with the job logs as
detail, anything else answers 404 with detail results-not-ready; an id not
in the cache answers 404. The returned pair is (HTTP status code, body). -/
def JobResultsHandler (cache : List CacheJob) (jobID : String) :
    Nat × ResultsBody :=
  match cache.find? (fun j => j.UUID == jobID) with
  | some j =>
    if j.Status = SUCCESSFUL then (200, ResultsBody.outputs j.outputs)
    else if j.Status = FAILED ∨ j.Status = DISMISSED then
      (200, ResultsBody.logsDetail j.logs)
    else (404, ResultsBody.notReady)
  | none => (404, ResultsBody.notFound)

/-- The jobID injection of src/jobs/handlers.go line 174: store the minted
job id under the key jobID in the inputs map, leaving every other key as it
was. Inputs maps are modelled as partial maps from input name to value. -/
def injectJobID (inputs : String → Option String) (jobID : String) :
    String → Option String :=
  fun k => if k = "jobID" then some jobID else inputs k

/-- The command-vector construction of src/jobs/handlers.go lines 180-185:
the serialized inputs alone when the runtime entrypoint is empty, the
entrypoint followed by the serialized inputs otherwise. -/
def buildCmd (entryPoint jsonParams : String) : List String :=
  if entryPoint = "" then [jsonParams] else [entryPoint, jsonParams]

/-- Lines 174-185 of the Execution handler composed: inject the job id into
the inputs, serialize them (marshal stands for json.Marshal restricted to
the maps that serialize without error), and build the command vector. -/
def executionCmd (marshal : (String → Option String) → String)
    (inputs : String → Option String) (jobID entryPoint : String) :
    List String :=
  buildCmd entryPoint (marshal (injectJobID inputs jobID))

/-- The submit phase of the Execution handler, src/jobs/handlers.go lines
217-225, for an aws-batch job: the job is added to the jobs cache (the
JobsCache.Add method is not under src; per the spec it inserts the job into
the cache map, modelled here as prepending the job id to the list of cached
ids) and Create is called; a Create error makes the handler return HTTP 500
with no further cache operation. The result is (cached ids, job state after
Create, HTTP code of an early error response if any), or none when Create
panics on a nil command. -/
def executionSubmitPhase (cacheIds : List String) (j : JobsPkg.AWSBatchJob)
    (ctrlErr createErr : Option String) (batchID : String) (now : Nat) :
    Option (List String × JobsPkg.AWSBatchJob × Option Nat) :=
  let cacheIds1 := j.UUID :: cacheIds
  match JobsPkg.Create j ctrlErr createErr batchID now with
  | none => none
  | some (j1, some _) => some (cacheIds1, j1, some 500)
  | some (j1, none) => some (cacheIds1, j1, none)

/-- A concrete api-package job in the running status, used by witnesses. -/
def apiRunningJob : ApiJobs.AWSBatchJob :=
  { Status := RUNNING, UpdateTime := 4, apiLogs := [] }

/-- A concrete api-package job in the successful status, used by witnesses. -/
def apiDoneJob : ApiJobs.AWSBatchJob :=
  { Status := SUCCESSFUL, UpdateTime := 11, apiLogs := ["submitted"] }

/-- A concrete jobs-package job in the successful status. -/
def termJobOld : JobsPkg.AWSBatchJob :=
  { UUID := "j1", Status := SUCCESSFUL, UpdateTime := 3, APILogs := [],
    ContainerLogs := [], AWSBatchID := "b1", Cmd := some ["run"],
    cancelled := false }

/-- A concrete jobs-package job in the running status. -/
def monitoredJob : JobsPkg.AWSBatchJob :=
  { UUID := "j2", Status := RUNNING, UpdateTime := 1, APILogs := [],
    ContainerLogs := [], AWSBatchID := "b2", Cmd := some ["go"],
    cancelled := false }

/-- A concrete jobs-package job in the running status, target of a kill. -/
def runningJob : JobsPkg.AWSBatchJob :=
  { UUID := "j4", Status := RUNNING, UpdateTime := 2, APILogs := [],
    ContainerLogs := [], AWSBatchID := "b4", Cmd := some ["go"],
    cancelled := false }

/-- A concrete jobs-package job about to be submitted. -/
def submitJob : JobsPkg.AWSBatchJob :=
  { UUID := "job-6", Status := "", UpdateTime := 0, APILogs := [],
    ContainerLogs := [], AWSBatchID := "", Cmd := some ["cmd"],
    cancelled := false }

/-- ApiJobs.NewStatusUpdate is the identity once the status is terminal. -/
theorem apiNewStatusUpdate_terminal_noop (j : ApiJobs.AWSBatchJob)
    (s : String) (t now : Nat) (h : terminalStatus j.Status = true) :
    ApiJobs.NewStatusUpdate j s t now = j := by
  simp [ApiJobs.NewStatusUpdate, h]

/-- C10: on a job whose current status is non-terminal, NewStatusUpdate sets
the status to the given value, sets the update time to the given time when
it is non-zero and to the current clock when it is the zero time, and leaves
the api log as it was. -/
theorem c10_newStatusUpdate_nonterminal (j : ApiJobs.AWSBatchJob)
    (s : String) (t now : Nat) (h : terminalStatus j.Status = false) :
    (ApiJobs.NewStatusUpdate j s t now).Status = s ∧
    (ApiJobs.NewStatusUpdate j s t now).UpdateTime =
      (if t = 0 then now else t) ∧
    (ApiJobs.NewStatusUpdate j s t now).apiLogs = j.apiLogs := by
  simp [ApiJobs.NewStatusUpdate, h]

/-- C10 witness: the theorem evaluated on a concrete running job, zero
update time, clock 9. -/
theorem c10_witness :
    terminalStatus apiRunningJob.Status = false ∧
    ((ApiJobs.NewStatusUpdate apiRunningJob SUCCESSFUL 0 9).Status = SUCCESSFUL ∧
     (ApiJobs.NewStatusUpdate apiRunningJob SUCCESSFUL 0 9).UpdateTime =
       (if 0 = 0 then 9 else 0) ∧
     (ApiJobs.NewStatusUpdate apiRunningJob SUCCESSFUL 0 9).apiLogs =
       apiRunningJob.apiLogs) :=
  ⟨by decide, c10_newStatusUpdate_nonterminal apiRunningJob SUCCESSFUL 0 9 (by decide)⟩

/-- C9: calling Kill on a job whose status is terminal returns an error,
issues no provider-side kill call, and leaves status and update time
unchanged; the only state change is the dismiss message appended to the api
log. -/
theorem c9_kill_terminal (j : ApiJobs.AWSBatchJob) (ce ke : Option String)
    (now : Nat) (h : terminalStatus j.Status = true) :
    ApiJobs.Kill j ce ke now =
      (ApiJobs.NewMessage j "Received dismiss signal",
        some "cannot call delete on an already completed, failed, or dismissed job",
        false) ∧
    (ApiJobs.Kill j ce ke now).1.Status = j.Status ∧
    (ApiJobs.Kill j ce ke now).1.UpdateTime = j.UpdateTime ∧
    (ApiJobs.Kill j ce ke now).1.apiLogs =
      j.apiLogs ++ ["Received dismiss signal"] := by
  simp [ApiJobs.Kill, ApiJobs.NewMessage, h]

/-- C9 witness: the theorem evaluated on a concrete successful job. -/
theorem c9_witness :
    terminalStatus apiDoneJob.Status = true ∧
    (ApiJobs.Kill apiDoneJob none none 20).1.Status = apiDoneJob.Status ∧
    (ApiJobs.Kill apiDoneJob none none 20).2.2 = false :=
  ⟨by decide,
    (c9_kill_terminal apiDoneJob none none 20 (by decide)).2.1,
    by rw [(c9_kill_terminal apiDoneJob none none 20 (by decide)).1]⟩

/-- C8: the Execution handler stores the minted job id under the key jobID
of the inputs map before serialization, leaves every other input untouched,
and builds the command vector as the serialized inputs alone when the
entrypoint is empty and as the entrypoint followed by the serialized inputs
otherwise. -/
theorem c8_cmd_construction (marshal : (String → Option String) → String)
    (inputs : String → Option String) (jobID entryPoint : String) :
    injectJobID inputs jobID "jobID" = some jobID ∧
    (∀ k, k ≠ "jobID" → injectJobID inputs jobID k = inputs k) ∧
    (entryPoint = "" →
      executionCmd marshal inputs jobID entryPoint =
        [marshal (injectJobID inputs jobID)]) ∧
    (entryPoint ≠ "" →
      executionCmd marshal inputs jobID entryPoint =
        [entryPoint, marshal (injectJobID inputs jobID)]) := by
  refine ⟨by simp [injectJobID], fun k hk => by simp [injectJobID, hk],
    fun h => by simp [executionCmd, buildCmd, h],
    fun h => by simp [executionCmd, buildCmd, h]⟩

/-- C8 witness: a concrete serializer, inputs map, job id, and non-empty
entrypoint. -/
theorem c8_witness :
    ("entry" : String) ≠ "" ∧
    executionCmd (fun _ => "payload") (fun _ => none) "id-1" "entry" =
      ["entry", "payload"] :=
  ⟨by decide,
    (c8_cmd_construction (fun _ => "payload") (fun _ => none) "id-1"
      "entry").2.2.2 (by decide)⟩

/-- C3 counterexample: on a concrete running job, a single observe error
makes the monitor set the failed status, cancel the context, and exit the
loop, instead of leaving the status unchanged and retrying at the next
tick. -/
theorem c3_counterexample :
    JobsPkg.runIter monitoredJob "" (JobsPkg.BatchObs.fail "connection reset") 9 =
      ({ monitoredJob with
          APILogs := ["connection reset"]
          Status := FAILED
          UpdateTime := 9
          cancelled := true }, "", false) ∧
    terminalStatus FAILED = true :=
  ⟨rfl, by decide⟩

/-- C3 amended: on an observe error the monitor appends the error to the api
log, sets the status to failed, cancels the context, and exits the loop; it
does not retry and the failure is terminal. -/
theorem c3_amended_observeError (j : JobsPkg.AWSBatchJob)
    (oldStatus e : String) (now : Nat) :
    JobsPkg.runIter j oldStatus (JobsPkg.BatchObs.fail e) now =
      ({ j with
          APILogs := j.APILogs ++ [e]
          Status := FAILED
          UpdateTime := now
          cancelled := true }, oldStatus, false) := by
  rfl

/-- C1 counterexample: the jobs-package NewStatusUpdate, called on a
concrete job whose status is the terminal successful, overwrites both the
status and the update time, so a NewStatusUpdate on a terminal job does
change the observable status. -/
theorem c1_counterexample :
    terminalStatus termJobOld.Status = true ∧
    (JobsPkg.NewStatusUpdate termJobOld RUNNING 7).Status = RUNNING ∧
    (JobsPkg.NewStatusUpdate termJobOld RUNNING 7).UpdateTime = 7 ∧
    RUNNING ≠ termJobOld.Status ∧ (7 : Nat) ≠ termJobOld.UpdateTime :=
  ⟨by decide, rfl, rfl, by decide, by decide⟩

/-- C1 amended: for the api-package job, whose NewStatusUpdate carries the
terminal guard, once the status is terminal no sequence of NewStatusUpdate
calls changes the job state at all - status and last-update included. -/
theorem c1_amended_monotonic (j : ApiJobs.AWSBatchJob)
    (h : terminalStatus j.Status = true)
    (calls : List (String × Nat × Nat)) :
    ApiJobs.applyUpdates j calls = j := by
  induction calls with
  | nil => rfl
  | cons c rest ih =>
    obtain ⟨s, t, now⟩ := c
    show ApiJobs.applyUpdates (ApiJobs.NewStatusUpdate j s t now) rest = j
    rw [apiNewStatusUpdate_terminal_noop j s t now h]
    exact ih

/-- C1 witness: a concrete successful job and a concrete sequence of two
further update calls leave the job unchanged. -/
theorem c1_witness :
    terminalStatus apiDoneJob.Status = true ∧
    ApiJobs.applyUpdates apiDoneJob [(RUNNING, 0, 12), (FAILED, 15, 16)] =
      apiDoneJob :=
  ⟨by decide,
    c1_amended_monotonic apiDoneJob (by decide) [(RUNNING, 0, 12), (FAILED, 15, 16)]⟩

/-- C2 counterexample: the monitor loop observing the raw provider status
SUBMITTED on a concrete running job leaves the status unchanged instead of
mapping it to accepted. -/
theorem c2_counterexample :
    (JobsPkg.runIter monitoredJob ""
      (JobsPkg.BatchObs.ok "SUBMITTED" "stream-2") 9).1.Status = RUNNING ∧
    RUNNING ≠ ACCEPTED :=
  ⟨rfl, by decide⟩

/-- C2 amended: the status switch of the monitor loop maps the observed
status ACCEPTED to accepted, RUNNING to running, SUCCEEDED to successful,
DISMISSED to dismissed, FAILED to failed, and leaves the job completely
unchanged on any other observed status; the raw provider statuses
SUBMITTED, PENDING, RUNNABLE and STARTING fall in the unchanged case, as
their translation happens in the controllers package upstream of this
loop. -/
theorem c2_amended_statusSwitch (j : JobsPkg.AWSBatchJob) (now : Nat) :
    (JobsPkg.runSwitch j "ACCEPTED" now).1.Status = ACCEPTED ∧
    (JobsPkg.runSwitch j "RUNNING" now).1.Status = RUNNING ∧
    (JobsPkg.runSwitch j "SUCCEEDED" now).1.Status = SUCCESSFUL ∧
    (JobsPkg.runSwitch j "DISMISSED" now).1.Status = DISMISSED ∧
    (JobsPkg.runSwitch j "FAILED" now).1.Status = FAILED ∧
    (∀ s, s ≠ "ACCEPTED" → s ≠ "RUNNING" → s ≠ "SUCCEEDED" →
      s ≠ "DISMISSED" → s ≠ "FAILED" →
      JobsPkg.runSwitch j s now = (j, false)) := by
  refine ⟨rfl, rfl, rfl, rfl, rfl, ?_⟩
  intro s h1 h2 h3 h4 h5
  simp [JobsPkg.runSwitch, h1, h2, h3, h4, h5]

/-- C2 witness: the amended theorem evaluated at the raw provider status
SUBMITTED on a concrete job. -/
theorem c2_amended_witness :
    ("SUBMITTED" : String) ≠ "ACCEPTED" ∧
    JobsPkg.runSwitch monitoredJob "SUBMITTED" 4 = (monitoredJob, false) :=
  ⟨by decide,
    (c2_amended_statusSwitch monitoredJob 4).2.2.2.2.2 "SUBMITTED"
      (by decide) (by decide) (by decide) (by decide) (by decide)⟩

/-- C7: on a cached job found by id, the results handler answers 200 with
the job outputs when the status is successful, 200 with the job logs as
detail when the status is failed or dismissed, and 404 results-not-ready on
any other status; an id not found in the cache answers 404. -/
theorem c7_jobResults (cache : List CacheJob) (jobID : String) :
    (∀ j, cache.find? (fun x => x.UUID == jobID) = some j →
      ((j.Status = SUCCESSFUL →
        JobResultsHandler cache jobID = (200, ResultsBody.outputs j.outputs)) ∧
       (j.Status = FAILED ∨ j.Status = DISMISSED →
        JobResultsHandler cache jobID = (200, ResultsBody.logsDetail j.logs)) ∧
       (j.Status ≠ SUCCESSFUL → j.Status ≠ FAILED → j.Status ≠ DISMISSED →
        JobResultsHandler cache jobID = (404, ResultsBody.notReady)))) ∧
    (cache.find? (fun x => x.UUID == jobID) = none →
      JobResultsHandler cache jobID = (404, ResultsBody.notFound)) := by
  constructor
  · intro j hfind
    refine ⟨?_, ?_, ?_⟩
    · intro h
      simp [JobResultsHandler, hfind, h]
    · intro h
      have hns : j.Status ≠ SUCCESSFUL := by
        rcases h with h | h <;> rw [h] <;> decide
      simp [JobResultsHandler, hfind, hns, h]
    · intro h1 h2 h3
      simp [JobResultsHandler, hfind, h1, h2, h3]
  · intro hfind
    simp [JobResultsHandler, hfind]

/-- A concrete successful cache entry, used by the C7 witness. -/
def doneCacheJob : CacheJob :=
  { UUID := "j7", Status := SUCCESSFUL, UpdateTime := 8,
    outputs := "out-7", logs := "log-7" }

/-- C7 witness: a one-entry cache holding a successful job answers 200 with
its outputs; the same lookup misses on another id and answers 404. -/
theorem c7_witness :
    ([doneCacheJob].find? (fun x => x.UUID == "j7") = some doneCacheJob ∧
      doneCacheJob.Status = SUCCESSFUL ∧
      JobResultsHandler [doneCacheJob] "j7" =
        (200, ResultsBody.outputs "out-7")) ∧
    ([doneCacheJob].find? (fun x => x.UUID == "zzz") = none ∧
      JobResultsHandler [doneCacheJob] "zzz" = (404, ResultsBody.notFound)) :=
  ⟨⟨by decide, by decide,
    ((c7_jobResults [doneCacheJob] "j7").1 doneCacheJob (by decide)).1 (by decide)⟩,
   ⟨by decide, (c7_jobResults [doneCacheJob] "zzz").2 (by decide)⟩⟩

/-- Mapping every job of a list to the not-invoked flag yields a list whose
first projections are the original jobs. -/
theorem killAll_map_false_fst (l : List RegJob) :
    (l.map (fun r => (r, false))).map Prod.fst = l := by
  induction l with
  | nil => rfl
  | cons a t ih => simp [ih]

/-- Filtering the invoked flag out of an all-not-invoked list yields the
empty list. -/
theorem killAll_map_false_filter (l : List RegJob) :
    (l.map (fun r => (r, false))).filter (fun p => p.2) = [] := by
  induction l with
  | nil => rfl
  | cons a t ih => simp [ih]

/-- C5: KillAll visits the registered jobs in iteration order; Kill is
invoked exactly on the jobs whose current status is accepted or running, up
to and including the first one whose Kill errs; the returned error is the
error of that first failing eligible job, and nil when every eligible Kill
succeeds. -/
theorem c5_killAll (js : List RegJob) :
    ((KillAll js).1.map Prod.fst = js) ∧
    (((KillAll js).1.filter (fun p => p.2)).map Prod.fst =
      (js.filter eligibleJob).takeWhile (fun j => j.killErr.isNone) ++
        ((js.filter eligibleJob).dropWhile (fun j => j.killErr.isNone)).take 1) ∧
    ((KillAll js).2 =
      (((js.filter eligibleJob).dropWhile (fun j => j.killErr.isNone)).head?).bind
        (fun j => j.killErr)) := by
  induction js with
  | nil => exact ⟨rfl, rfl, rfl⟩
  | cons j rest ih =>
    obtain ⟨ih1, ih2, ih3⟩ := ih
    by_cases he : eligibleJob j
    · cases hk : j.killErr with
      | some e =>
        refine ⟨?_, ?_, ?_⟩
        · simp [KillAll, he, hk]
          simpa using killAll_map_false_fst rest
        · simp [KillAll, he, hk, killAll_map_false_filter,
            List.filter_cons, List.takeWhile_cons, List.dropWhile_cons]
        · simp [KillAll, he, hk, List.filter_cons, List.dropWhile_cons]
      | none =>
        refine ⟨?_, ?_, ?_⟩
        · simp [KillAll, he, hk, ih1]
        · simp [KillAll, he, hk, List.filter_cons, List.takeWhile_cons,
            List.dropWhile_cons]
          exact ih2
        · simp [KillAll, he, hk, List.filter_cons, List.dropWhile_cons]
          exact ih3
    · refine ⟨?_, ?_, ?_⟩
      · simp [KillAll, he, ih1]
      · simp [KillAll, he, List.filter_cons]
        exact ih2
      · simp [KillAll, he, List.filter_cons]
        exact ih3

/-- The guarded status update is the identity once the status is terminal. -/
theorem newStatusUpdateGuarded_terminal_noop (j : JobsPkg.AWSBatchJob)
    (s : String) (now : Nat) (h : terminalStatus j.Status = true) :
    JobsPkg.NewStatusUpdateGuarded j s now = j := by
  simp [JobsPkg.NewStatusUpdateGuarded, h]

/-- The guarded status switch never changes a terminal status. -/
theorem runSwitchGuarded_status_terminal (j : JobsPkg.AWSBatchJob)
    (s : String) (now : Nat) (h : terminalStatus j.Status = true) :
    (JobsPkg.runSwitchGuarded j s now).1.Status = j.Status := by
  unfold JobsPkg.runSwitchGuarded
  split_ifs <;> simp [JobsPkg.NewStatusUpdateGuarded, h]

/-- One guarded monitor iteration never changes a terminal status. -/
theorem runIterGuarded_status_terminal (j : JobsPkg.AWSBatchJob)
    (oldStatus : String) (obs : JobsPkg.BatchObs) (now : Nat)
    (h : terminalStatus j.Status = true) :
    (JobsPkg.runIterGuarded j oldStatus obs now).1.Status = j.Status := by
  cases obs with
  | fail e =>
    simp [JobsPkg.runIterGuarded, JobsPkg.HandleErrorGuarded,
      JobsPkg.NewStatusUpdateGuarded, h]
  | ok st ls =>
    by_cases hne : st ≠ oldStatus
    · simp only [JobsPkg.runIterGuarded]
      rw [if_pos hne]
      exact runSwitchGuarded_status_terminal { j with ContainerLogs := [ls] } st now h
    · simp [JobsPkg.runIterGuarded, hne]

/-- The guarded monitor loop never changes a terminal status, whatever the
observation sequence. -/
theorem monitorGuarded_status_terminal (obsList : List (JobsPkg.BatchObs × Nat)) :
    ∀ (j : JobsPkg.AWSBatchJob) (oldStatus : String),
      terminalStatus j.Status = true →
      (JobsPkg.monitorGuarded j oldStatus obsList).Status = j.Status := by
  induction obsList with
  | nil => intro j old h; rfl
  | cons p rest ih =>
    intro j old h
    obtain ⟨obs, now⟩ := p
    have hs := runIterGuarded_status_terminal j old obs now h
    have ht : terminalStatus (JobsPkg.runIterGuarded j old obs now).1.Status = true := by
      rw [hs]; exact h
    show (if (JobsPkg.runIterGuarded j old obs now).2.2 then
        JobsPkg.monitorGuarded (JobsPkg.runIterGuarded j old obs now).1
          (JobsPkg.runIterGuarded j old obs now).2.1 rest
      else (JobsPkg.runIterGuarded j old obs now).1).Status = j.Status
    by_cases hc : (JobsPkg.runIterGuarded j old obs now).2.2
    · rw [if_pos hc, ih _ _ ht, hs]
    · rw [if_neg hc, hs]

/-- C4 counterexample: on a concrete running job, Kill returns nil and sets
the dismissed status, yet the very next iteration of the actual monitor
loop, observing RUNNING, moves the status back to running, because the
jobs-package status update has no terminal guard. -/
theorem c4_counterexample :
    (JobsPkg.Kill runningJob none none 5).2 = none ∧
    (JobsPkg.Kill runningJob none none 5).1.Status = DISMISSED ∧
    (JobsPkg.runIter (JobsPkg.Kill runningJob none none 5).1 ""
      (JobsPkg.BatchObs.ok "RUNNING" "stream-4") 6).1.Status = RUNNING :=
  ⟨rfl, rfl, rfl⟩

/-- C4 amended: after a Kill that returns nil the status is dismissed, and
when the monitor applies the terminal-guarded status update of the api
package, no sequence of subsequent observe iterations moves the status
anywhere - in particular never back to running or successful. The actual
src/jobs monitor uses the unguarded update, under which the property fails. -/
theorem c4_amended_killThenObserve (j : JobsPkg.AWSBatchJob)
    (ce ke : Option String) (now : Nat)
    (h : (JobsPkg.Kill j ce ke now).2 = none)
    (oldStatus : String) (obsList : List (JobsPkg.BatchObs × Nat)) :
    (JobsPkg.monitorGuarded (JobsPkg.Kill j ce ke now).1 oldStatus obsList).Status
        = DISMISSED ∧
    (JobsPkg.monitorGuarded (JobsPkg.Kill j ce ke now).1 oldStatus obsList).Status
        ≠ RUNNING ∧
    (JobsPkg.monitorGuarded (JobsPkg.Kill j ce ke now).1 oldStatus obsList).Status
        ≠ SUCCESSFUL := by
  cases ce with
  | some e => simp [JobsPkg.Kill] at h
  | none =>
    cases ke with
    | some e => simp [JobsPkg.Kill] at h
    | none =>
      have hst : (JobsPkg.Kill j none none now).1.Status = DISMISSED := rfl
      have hterm : terminalStatus (JobsPkg.Kill j none none now).1.Status = true := by
        rw [hst]; decide
      have hmain := monitorGuarded_status_terminal obsList
        (JobsPkg.Kill j none none now).1 oldStatus hterm
      rw [hmain, hst]
      exact ⟨rfl, by decide, by decide⟩

/-- C4 witness: the amended theorem evaluated on a concrete running job, a
successful kill, and a subsequent RUNNING observation. -/
theorem c4_amended_witness :
    (JobsPkg.Kill runningJob none none 5).2 = none ∧
    (JobsPkg.monitorGuarded (JobsPkg.Kill runningJob none none 5).1 ""
      [(JobsPkg.BatchObs.ok "RUNNING" "stream-4", 6)]).Status = DISMISSED :=
  ⟨rfl,
    (c4_amended_killThenObserve runningJob none none 5 rfl ""
      [(JobsPkg.BatchObs.ok "RUNNING" "stream-4", 6)]).1⟩

/-- C6 counterexample: on a concrete job whose backend submit fails, the
handler does answer 500 and the job never reaches accepted, but the job id
stays in the jobs cache: the insertion is not rolled back. -/
theorem c6_counterexample :
    executionSubmitPhase [] submitJob none (some "submit failed") "" 5 =
      some (["job-6"],
        { submitJob with
            APILogs := ["submit failed"]
            Status := FAILED
            UpdateTime := 5
            cancelled := true },
        some 500) ∧
    submitJob.UUID ∈ (["job-6"] : List String) :=
  ⟨rfl, by decide⟩

/-- C6 amended: when the backend submit fails (controller construction or
JobCreate errs), the job never enters the accepted status - it is marked
failed - and the handler responds 500, but the insertion into the jobs
cache is not rolled back: the failed job remains in the cache. -/
theorem c6_amended_submitFailure (cacheIds : List String)
    (j : JobsPkg.AWSBatchJob) (ce cerr : Option String) (bid : String)
    (now : Nat) (h : ce ≠ none ∨ cerr ≠ none) :
    ∃ jf, executionSubmitPhase cacheIds j ce cerr bid now =
        some (j.UUID :: cacheIds, jf, some 500) ∧
      jf.Status = FAILED ∧ jf.Status ≠ ACCEPTED ∧
      j.UUID ∈ j.UUID :: cacheIds := by
  cases ce with
  | some e =>
    exact ⟨JobsPkg.HandleError j e now, rfl, rfl,
      (by decide : FAILED ≠ ACCEPTED), List.mem_cons_self _ _⟩
  | none =>
    cases cerr with
    | some e =>
      exact ⟨JobsPkg.HandleError j e now, rfl, rfl,
        (by decide : FAILED ≠ ACCEPTED), List.mem_cons_self _ _⟩
    | none =>
      rcases h with h | h <;> exact absurd rfl h

/-- C6 witness: the amended theorem evaluated on a concrete job whose
JobCreate call fails. -/
theorem c6_amended_witness :
    ((none : Option String) ≠ none ∨ (some "boom" : Option String) ≠ none) ∧
    ∃ jf, executionSubmitPhase [] submitJob none (some "boom") "" 5 =
        some (["job-6"], jf, some 500) ∧
      jf.Status = FAILED ∧ jf.Status ≠ ACCEPTED ∧
      ("job-6" : String) ∈ (["job-6"] : List String) :=
  ⟨Or.inr (by decide),
    c6_amended_submitFailure [] submitJob none (some "boom") "" 5
      (Or.inr (by decide))⟩
